import Mathlib

/-!
# BlogAI server bootstrap (`server/server.js`)

A shallow embedding of the top-level script of `server/server.js`: the startup
sequence (`dotenv.config()`, `express()`, `await connectDB()`, the five
`app.use` / `app.get` registrations, `app.listen(PORT)`) and the way the
resulting Express layer stack answers a request.

The collaborators that the script imports from the repository
(`./configs/db.js`, `./routes/adminRoutes.js`, `./routes/blogRoutes.js`) are
parameters of the model.  The behaviour of the npm packages the script calls
is modelled from their documented defaults: `express` 5 (router 2,
path-to-regexp 8, body-parser 2, finalhandler 2), `cors` 2 and `dotenv`; each
definition says which behaviour it encodes.
-/

namespace BlogAI

/-! ## HTTP data -/

/-- HTTP request methods. -/
inductive Method
  | GET | HEAD | POST | PUT | PATCH | DELETE | OPTIONS
  deriving DecidableEq

/-- What `express.json()` can find out about a non-empty body whose
`Content-Type` is `application/json`, in the order it checks: the charset
parameter is absent or a `utf-` one; the `Content-Encoding` is one it can
inflate; the length is within the 100kb default limit; the body arrives whole
and inflates; the text is well-formed JSON; and its top level is an object or
an array (`strict` is on by default). -/
structure JsonBody where
  charsetOk : Bool
  encodingOk : Bool
  withinLimit : Bool
  intact : Bool
  wellFormed : Bool
  structured : Bool
  deriving DecidableEq

/-- The request payload as `express.json()` sees it: no body (or an empty
one), a body typed `application/json`, or a body of another type. -/
inductive Body
  | absent
  | json (b : JsonBody)
  | other
  deriving DecidableEq

/-- An incoming request: method, URL pathname, `Origin` header, whether its
conditional headers (`If-None-Match`, `If-Modified-Since`, `Cache-Control`)
validate the representation the server is about to send, and the payload. -/
structure Request where
  method : Method
  path : String
  origin : Option String
  fresh : Bool
  body : Body
  deriving DecidableEq

/-- What a response body carries: nothing, a text with its `Content-Type`,
the `Allow` list of the automatic `OPTIONS` reply, or the error page written
by Express's final handler. -/
inductive Payload
  | empty
  | sent (contentType : String) (text : String)
  | allowList
  | errorPage
  deriving DecidableEq

/-- An HTTP response. -/
structure Response where
  status : Nat
  payload : Payload
  deriving DecidableEq

/-- What a middleware or handler does with a request: end the response, call
`next()`, call `next(err)` (with the status the error carries, if any, and the
value of `res.statusCode` at that moment), or do neither and leave the request
open. -/
inductive Outcome
  | respond (r : Response)
  | next
  | error (status : Option Nat) (resStatus : Nat)
  | pending
  deriving DecidableEq

/-! ## The Express application -/

/-- The five functions that `server.js` installs on the app: `cors()`,
`express.json()`, the home route's arrow function, `adminRouter`,
`blogRouter`. -/
inductive Handler
  | cors
  | json
  | home
  | adminRouter
  | blogRouter
  deriving DecidableEq

/-- A layer of the app's router stack, one per registration call:
`app.use(fn)`, `app.use(path, router)` and `app.get(path, fn)`. -/
inductive Layer
  | use (h : Handler)
  | mount (path : String) (h : Handler)
  | get (path : String) (h : Handler)
  deriving DecidableEq

/-- The function a layer runs. -/
def Layer.handler : Layer → Handler
  | .use h => h
  | .mount _ h => h
  | .get _ h => h

/-- Express compares paths case-insensitively (`case sensitive routing` is off
by default): the characters of a path in lower case. -/
def lower (s : String) : List Char :=
  s.toList.map Char.toLower

/-- The router's `loosen` (`strict routing` is off by default): a registered
path other than `/` loses its trailing slashes. -/
def loosen (cs : List Char) : List Char :=
  if cs = ['/'] then cs else (cs.reverse.dropWhile (fun c => c == '/')).reverse

/-- Path test of `app.use(path, ...)`, the pattern
`^(?:path)(?:\/$)?(?=\/|$)` with flag `i`: the request path starts with the
mount path and the mount path ends at a segment boundary (end of the path or
`/`). -/
def mountMatches (mountPath path : String) : Bool :=
  let m := loosen (lower mountPath)
  let p := lower path
  m.isPrefixOf p &&
    (match p.drop m.length with
     | [] => true
     | c :: _ => c == '/')

/-- Path test of `app.get(path, ...)`, the pattern `^(?:path)(?:\/$)?$` with
flag `i`: the request path is the route path, or the route path followed by
one slash. -/
def routeMatches (routePath path : String) : Bool :=
  let r := loosen (lower routePath)
  let p := lower path
  p == r || p == r ++ ['/']

/-- Whether the router runs the layer for the request.  `app.use(fn)` runs for
every request, and so does a mount at `/`; a mounted router runs for every
method on matching paths; a `get` route runs for `GET`, and for `HEAD` since
no `head` route is defined. -/
def Layer.matches (l : Layer) (req : Request) : Bool :=
  match l with
  | .use _ => true
  | .mount p _ => p == "/" || mountMatches p req.path
  | .get p _ => routeMatches p req.path && (req.method == .GET || req.method == .HEAD)

/-- Whether the layer is a route whose path matches an `OPTIONS` request: the
router does not run it but remembers its methods for the automatic reply. -/
def Layer.allows (l : Layer) (req : Request) : Bool :=
  match l with
  | .get p _ => routeMatches p req.path && req.method == .OPTIONS
  | _ => false

/-- The process environment: `process.env` as a list of name/value pairs. -/
abbrev Env := List (String × String)

/-- The argument handed to `app.listen`: a string taken from the environment
or the number literal `3000`. -/
inductive PortArg
  | str (s : String)
  | num (n : Nat)
  deriving DecidableEq

/-- String concatenation `'...' + PORT` of the log line. -/
def PortArg.render : PortArg → String
  | .str s => s
  | .num n => toString n

/-- Everything outside `server.js` that a run depends on: the environment the
process is started with, the parsed `.env` file (if there is one), whether the
promise returned by `connectDB()` resolves, the two sub-routers, and whether
the operating system lets the listener bind. -/
structure World where
  processEnv : Env
  dotenvFile : Option Env
  connectDB : Env → Bool
  adminRouter : Request → Outcome
  blogRouter : Request → Outcome
  portFree : PortArg → Bool

/-- The status with which `express.json()` rejects a JSON-typed body, if it
does: 415 for an unsupported charset or encoding, 413 over the size limit,
400 for a body that does not arrive whole or does not parse. -/
def JsonBody.failure (b : JsonBody) : Option Nat :=
  if !b.charsetOk then some 415
  else if !b.encodingOk then some 415
  else if !b.withinLimit then some 413
  else if !b.intact then some 400
  else if !b.wellFormed then some 400
  else if !b.structured then some 400
  else none

/-- The status with which `express.json()` rejects the request, if it does;
requests without a JSON-typed body are passed on unread. -/
def Body.failure : Body → Option Nat
  | .json b => b.failure
  | _ => none

/-- `res.send(text)` for a string: status 200 with the text as
`text/html; charset=utf-8`; nothing is written for `HEAD`; and a `GET` or
`HEAD` request whose conditional headers validate the generated `ETag` gets
304 without body. -/
def send (req : Request) (text : String) : Response :=
  if req.fresh && (req.method == .GET || req.method == .HEAD) then ⟨304, .empty⟩
  else ⟨200, if req.method = .HEAD then .empty else .sent "text/html; charset=utf-8" text⟩

/-- Running an installed function on a request.
* `cors()` with its default options answers every `OPTIONS` request itself
  (`preflightContinue: false`, `optionsSuccessStatus: 204`) and passes every
  other request on.
* `express.json()` passes on requests without a JSON-typed body and JSON-typed
  bodies it accepts, and fails with the status of `Body.failure` otherwise.
* the home route is `(req, res) => res.send("API is working")`.
* the sub-routers are the collaborators. -/
def invoke (w : World) (h : Handler) (req : Request) : Outcome :=
  match h with
  | .cors => if req.method = .OPTIONS then .respond ⟨204, .empty⟩ else .next
  | .json =>
    match req.body.failure with
    | some s => .error (some s) 200
    | none => .next
  | .home => .respond (send req "API is working")
  | .adminRouter => w.adminRouter req
  | .blogRouter => w.blogRouter req

/-- The status the final handler answers an error with: the error's own
status when it lies in 400..599, else `res.statusCode` when that does, else
500. -/
def errorStatus (status : Option Nat) (resStatus : Nat) : Nat :=
  match status with
  | some s =>
    if 400 ≤ s ∧ s < 600 then s
    else if 400 ≤ resStatus ∧ resStatus < 600 then resStatus else 500
  | none => if 400 ≤ resStatus ∧ resStatus < 600 then resStatus else 500

/-- Express's final handler: an error page with the given status; for `HEAD`
only the headers are written. -/
def finalHandler (req : Request) (status : Nat) : Response :=
  ⟨status, if req.method = .HEAD then .empty else .errorPage⟩

/-- A served request: the installed functions that ran, in the order they ran,
and the response, if the request was answered. -/
structure Exchange where
  ran : List Handler
  response : Option Response
  deriving DecidableEq

/-- Express's router loop over the layer stack, in registration order.  A
matching layer is run; `next()` moves on to the following layers; an error
skips them (no error-handling middleware is installed) and the final handler
answers with the error's status; a function that neither answers nor calls
`next` leaves the request open.  When the stack is exhausted the final
handler answers 404, except that an `OPTIONS` request whose path matched a
route gets the automatic `Allow` reply. -/
def runStack (w : World) (req : Request) : List Layer → List Handler → Bool → Exchange
  | [], ran, allow =>
    ⟨ran, some (if allow then ⟨200, .allowList⟩ else finalHandler req 404)⟩
  | l :: ls, ran, allow =>
    if l.matches req then
      match invoke w l.handler req with
      | .respond r => ⟨ran ++ [l.handler], some r⟩
      | .next => runStack w req ls (ran ++ [l.handler]) allow
      | .error s rs => ⟨ran ++ [l.handler], some (finalHandler req (errorStatus s rs))⟩
      | .pending => ⟨ran ++ [l.handler], none⟩
    else runStack w req ls ran (allow || l.allows req)

/-! ## Startup -/

/-- The observable steps of the script, one per statement. -/
inductive Event
  | loadConfig
  | createApp
  | connectDB
  | register (l : Layer)
  | listen (port : PortArg)
  | log (line : String)
  deriving DecidableEq

/-- How far the process has got: still starting, serving requests, ended by
an uncaught error, or running without a listener. -/
inductive Phase
  | starting
  | serving
  | crashed
  | idle
  deriving DecidableEq

/-- The state of the process: `process.env`, the app's layer stack, what the
listener is bound to, the steps taken so far, and the phase. -/
structure Server where
  env : Env
  stack : List Layer
  bound : Option PortArg
  events : List Event
  phase : Phase
  deriving DecidableEq

/-- `dotenv.config()`: the variables of the `.env` file are added to
`process.env` unless already set there; a missing file leaves `process.env`
as it is.  The call reports problems in its return value, which `server.js`
ignores, and never throws. -/
def dotenvConfig (file : Option Env) (env : Env) : Env :=
  match file with
  | none => env
  | some kvs => env ++ kvs.filter (fun kv => (env.lookup kv.1).isNone)

/-- `const PORT = process.env.PORT || 3000`: the variable's string when it is
set to a non-empty string (the only truthy strings), else the number 3000. -/
def PORT (env : Env) : PortArg :=
  match env.lookup "PORT" with
  | some s => if s = "" then .num 3000 else .str s
  | none => .num 3000

/-- A registration call appends a layer to the app's stack. -/
def Server.add (s : Server) (l : Layer) : Server :=
  { s with stack := s.stack ++ [l], events := s.events ++ [.register l] }

/-- `app.listen(PORT, () => console.log('Server is running on port ' + PORT))`.
Express 5 installs the callback both as the `listening` callback and as a
one-time `error` listener, so the line is logged whether or not the bind
succeeds; after a failed bind the error counts as handled and the process is
left without a listener. -/
def Server.listen (w : World) (s : Server) (port : PortArg) : Server :=
  if w.portFree port then
    { s with
      bound := some port
      events := s.events ++ [.listen port, .log ("Server is running on port " ++ port.render)]
      phase := .serving }
  else
    { s with
      events := s.events ++ [.listen port, .log ("Server is running on port " ++ port.render)]
      phase := .idle }

/-- The top level of `server.js`, statement by statement.  A rejected
`await connectDB()` throws out of the module, so nothing after it runs. -/
def startup (w : World) : Server :=
  -- dotenv.config()
  let env := dotenvConfig w.dotenvFile w.processEnv
  -- const app = express()
  let s0 : Server := ⟨env, [], none, [.loadConfig, .createApp], .starting⟩
  -- await connectDB()
  let s1 : Server := { s0 with events := s0.events ++ [.connectDB] }
  if w.connectDB env then
    let s2 := s1.add (.use .cors)
    let s3 := s2.add (.use .json)
    let s4 := s3.add (.get "/" .home)
    let s5 := s4.add (.mount "/api/admin" .adminRouter)
    let s6 := s5.add (.mount "/api/blog" .blogRouter)
    s6.listen w (PORT env)
  else
    { s1 with phase := .crashed }

/-- A request sent to the process: it is taken up only when the listener is
bound, by running the app's stack. -/
def serve (w : World) (s : Server) (req : Request) : Option Exchange :=
  match s.bound with
  | none => none
  | some _ => some (runStack w req s.stack [] false)

/-! ## Route dispatch -/

/-- Whether the layer is a route or a mounted router, as opposed to a
middleware installed with `app.use(fn)`. -/
def Layer.isTarget : Layer → Bool
  | .use _ => false
  | _ => true

/-- The route layers of a stack, in registration order. -/
def routes (stack : List Layer) : List Layer :=
  stack.filter Layer.isTarget

/-- Express's dispatch among the routes: the first route layer, in
registration order, that matches the request. -/
def dispatch (stack : List Layer) (req : Request) : Option Handler :=
  ((routes stack).find? (fun l => l.matches req)).map Layer.handler

/-- All route layers that match the request, in registration order: the
targets the router loop would hand the request to if each called `next()`. -/
def matched (stack : List Layer) (req : Request) : List Handler :=
  ((routes stack).filter (fun l => l.matches req)).map Layer.handler

/-! ## The specification's Router Table -/

/-- A row of the specification's Router Table: a path, whether the path must
match exactly or as a prefix, the method the row is limited to (if any), and
the target. -/
structure RouteEntry where
  path : String
  exact : Bool
  method : Option Method
  target : Handler
  deriving DecidableEq

/-- The Router Table as the specification lists it: `/api/admin`, `/api/blog`,
and `/` (exact; `GET /` in the HTTP surface). -/
def routerTable : List RouteEntry :=
  [⟨"/api/admin", false, none, .adminRouter⟩,
   ⟨"/api/blog", false, none, .blogRouter⟩,
   ⟨"/", true, some .GET, .home⟩]

/-- The specification's path test for a row, taken literally: the request
path is the row's path (exact rows) or starts with it (prefix rows), and the
method is the row's, if it names one. -/
def RouteEntry.matches (e : RouteEntry) (req : Request) : Bool :=
  (match e.method with
   | none => true
   | some m => req.method == m) &&
  (if e.exact then req.path.toList == e.path.toList
   else e.path.toList.isPrefixOf req.path.toList)

/-- The specification's matching policy, longest-prefix match: among the rows
of the table that match the request, the one with the longest path; no row
when none matches. -/
def longestPrefixMatch (table : List RouteEntry) (req : Request) : Option Handler :=
  ((table.filter (fun e => e.matches req)).foldl
    (fun best e =>
      match best with
      | none => some e
      | some b => if b.path.length < e.path.length then some e else some b)
    none).map RouteEntry.target

/-! ## Names for the run of `server.js` -/

/-- The stack that the five registration calls of `server.js` build. -/
def appStack : List Layer :=
  [.use .cors, .use .json, .get "/" .home,
   .mount "/api/admin" .adminRouter, .mount "/api/blog" .blogRouter]

/-- The steps of a run of `server.js` that gets as far as `app.listen`, in
order. -/
def fullRun (env : Env) : List Event :=
  [.loadConfig, .createApp, .connectDB,
   .register (.use .cors), .register (.use .json), .register (.get "/" .home),
   .register (.mount "/api/admin" .adminRouter), .register (.mount "/api/blog" .blogRouter),
   .listen (PORT env), .log ("Server is running on port " ++ (PORT env).render)]

/-- Whether a step installs a middleware or a route on the app. -/
def Event.isRegistration : Event → Bool
  | .register _ => true
  | _ => false

/-- Whether a step is the call of `app.listen`. -/
def Event.isListen : Event → Bool
  | .listen _ => true
  | _ => false

/-- Whether the response is an error response of the 4xx class. -/
def Response.isClientError (r : Response) : Bool :=
  400 ≤ r.status && r.status < 500

/-- What becomes of a request when the last layer that can match has run with
the given outcome. -/
def settle (req : Request) (ran : List Handler) : Outcome → Exchange
  | .respond r => ⟨ran, some r⟩
  | .next => ⟨ran, some (finalHandler req 404)⟩
  | .error s rs => ⟨ran, some (finalHandler req (errorStatus s rs))⟩
  | .pending => ⟨ran, none⟩

/-- Closed form of the router loop on the stack built by `server.js`, case by
case; `runStack_app` proves it equal to `runStack` on `appStack`. -/
def answer (w : World) (req : Request) : Exchange :=
  if req.method = .OPTIONS then ⟨[.cors], some ⟨204, .empty⟩⟩
  else
    match req.body.failure with
    | some s => ⟨[.cors, .json], some (finalHandler req (errorStatus (some s) 200))⟩
    | none =>
      if (Layer.get "/" .home).matches req then
        ⟨[.cors, .json, .home], some (send req "API is working")⟩
      else if mountMatches "/api/admin" req.path then
        settle req [.cors, .json, .adminRouter] (w.adminRouter req)
      else if mountMatches "/api/blog" req.path then
        settle req [.cors, .json, .blogRouter] (w.blogRouter req)
      else ⟨[.cors, .json], some (finalHandler req 404)⟩

/-! ## Sample runs and requests -/

/-- A run in which every collaborator cooperates: empty environment, no
`.env` file, the database connects, both sub-routers answer 200. -/
def happyWorld : World where
  processEnv := []
  dotenvFile := none
  connectDB := fun _ => true
  adminRouter := fun _ => .respond ⟨200, .sent "application/json; charset=utf-8" "admin"⟩
  blogRouter := fun _ => .respond ⟨200, .sent "application/json; charset=utf-8" "blog"⟩
  portFree := fun _ => true

/-- A run in which the promise of `connectDB()` rejects. -/
def dbDownWorld : World :=
  { happyWorld with connectDB := fun _ => false }

/-- A run started with `PORT=` (set, but empty). -/
def emptyPortWorld : World :=
  { happyWorld with processEnv := [("PORT", "")] }

/-- A run started with `PORT=8080`. -/
def port8080World : World :=
  { happyWorld with processEnv := [("PORT", "8080")] }

/-- A run started with `PORT=abc` and no other variable, in which the
database connector nevertheless resolves. -/
def badPortWorld : World :=
  { happyWorld with processEnv := [("PORT", "abc")] }

/-- A request without body, `Origin` or conditional headers. -/
def plain (m : Method) (path : String) : Request :=
  ⟨m, path, none, false, .absent⟩

/-- A JSON-typed body whose text is not well-formed JSON and is otherwise
acceptable. -/
def malformed : Body :=
  .json ⟨true, true, true, true, false, false⟩

/-- A JSON-typed body that `express.json()` accepts. -/
def wellFormedJson : Body :=
  .json ⟨true, true, true, true, true, true⟩

/-! ## Path facts -/

theorem admin_chars : loosen (lower "/api/admin") = "/api/admin".toList := by decide

theorem blog_chars : loosen (lower "/api/blog") = "/api/blog".toList := by decide

theorem root_chars : loosen (lower "/") = ['/'] := by decide

theorem toLower_slash {c : Char} (h : c.toLower = '/') : c = '/' := by
  unfold Char.toLower at h
  simp only at h
  split at h
  · rename_i hc
    exfalso
    generalize c.toNat = n at hc h
    obtain ⟨h1, h2⟩ := hc
    interval_cases n <;> revert h <;> decide
  · exact h

theorem map_toLower_slashes {cs l : List Char} (hl : ∀ c ∈ l, c = '/')
    (h : cs.map Char.toLower = l) : cs = l := by
  induction cs generalizing l with
  | nil => simpa using h
  | cons c cs ih =>
    cases l with
    | nil => simp at h
    | cons d l =>
      simp only [List.map_cons, List.cons.injEq] at h
      have hd : d = '/' := hl d (List.mem_cons_self _ _)
      have hc : c = '/' := toLower_slash (by rw [h.1, hd])
      rw [ih (fun x hx => hl x (List.mem_cons_of_mem _ hx)) h.2, hc, hd]

theorem lower_eq_slash {p : String} : lower p = ['/'] ↔ p = "/" := by
  constructor
  · intro h
    exact String.ext (map_toLower_slashes (by simp) h)
  · rintro rfl
    decide

theorem lower_eq_slash2 {p : String} : lower p = ['/', '/'] ↔ p = "//" := by
  constructor
  · intro h
    exact String.ext (map_toLower_slashes (by simp) h)
  · rintro rfl
    decide

/-- The home route's path test accepts exactly the paths `/` and `//`. -/
theorem routeMatches_root {p : String} :
    routeMatches "/" p = true ↔ (p = "/" ∨ p = "//") := by
  unfold routeMatches
  simp only [root_chars, Bool.or_eq_true, beq_iff_eq, List.singleton_append]
  rw [lower_eq_slash, lower_eq_slash2]

/-- A mount's path test accepts exactly the paths that, compared without
regard to case, are the mount path or continue it with a `/`. -/
theorem mountMatches_iff {m p : String} :
    mountMatches m p = true ↔
      ∃ rest, lower p = loosen (lower m) ++ rest ∧ (rest = [] ∨ ∃ t, rest = '/' :: t) := by
  unfold mountMatches
  simp only [Bool.and_eq_true, List.isPrefixOf_iff_prefix]
  constructor
  · rintro ⟨⟨rest, hrest⟩, hb⟩
    refine ⟨rest, hrest.symm, ?_⟩
    rw [← hrest, List.drop_left] at hb
    cases rest with
    | nil => exact Or.inl rfl
    | cons c t =>
      simp only [beq_iff_eq] at hb
      exact Or.inr ⟨t, by rw [hb]⟩
  · rintro ⟨rest, h, hr⟩
    rw [h, List.drop_left]
    refine ⟨List.prefix_append _ _, ?_⟩
    rcases hr with rfl | ⟨t, rfl⟩ <;> simp

theorem admin_iff {p : String} :
    mountMatches "/api/admin" p = true ↔
      ∃ rest, lower p = "/api/admin".toList ++ rest ∧ (rest = [] ∨ ∃ t, rest = '/' :: t) := by
  rw [mountMatches_iff, admin_chars]

theorem blog_iff {p : String} :
    mountMatches "/api/blog" p = true ↔
      ∃ rest, lower p = "/api/blog".toList ++ rest ∧ (rest = [] ∨ ∃ t, rest = '/' :: t) := by
  rw [mountMatches_iff, blog_chars]

theorem home_not_admin {p : String} (h : routeMatches "/" p = true) :
    mountMatches "/api/admin" p = false := by
  rcases routeMatches_root.mp h with rfl | rfl <;> decide

theorem home_not_blog {p : String} (h : routeMatches "/" p = true) :
    mountMatches "/api/blog" p = false := by
  rcases routeMatches_root.mp h with rfl | rfl <;> decide

theorem admin_not_blog {p : String} (h : mountMatches "/api/admin" p = true) :
    mountMatches "/api/blog" p = false := by
  by_contra hc
  have hb : mountMatches "/api/blog" p = true := Bool.eq_true_of_not_eq_false hc
  obtain ⟨r1, h1, _⟩ := admin_iff.mp h
  obtain ⟨r2, h2, _⟩ := blog_iff.mp hb
  have h3 : "/api/blog".toList <+: "/api/admin".toList :=
    List.prefix_of_prefix_length_le ⟨r2, h2.symm⟩ ⟨r1, h1.symm⟩ (by decide)
  revert h3
  decide

theorem lower_append (a b : String) : lower (a ++ b) = lower a ++ lower b := by
  simp [lower, String.toList]

theorem admin_under {p : String}
    (h : p = "/api/admin" ∨ ∃ rest : String, p = "/api/admin/" ++ rest) :
    mountMatches "/api/admin" p = true := by
  rcases h with rfl | ⟨rest, rfl⟩
  · decide
  · refine admin_iff.mpr ⟨'/' :: lower rest, ?_, Or.inr ⟨_, rfl⟩⟩
    rw [lower_append]
    rfl

theorem blog_under {p : String}
    (h : p = "/api/blog" ∨ ∃ rest : String, p = "/api/blog/" ++ rest) :
    mountMatches "/api/blog" p = true := by
  rcases h with rfl | ⟨rest, rfl⟩
  · decide
  · refine blog_iff.mpr ⟨'/' :: lower rest, ?_, Or.inr ⟨_, rfl⟩⟩
    rw [lower_append]
    rfl

/-! ## Startup facts -/

theorem startup_rejected (w : World)
    (h : w.connectDB (dotenvConfig w.dotenvFile w.processEnv) = false) :
    startup w =
      ⟨dotenvConfig w.dotenvFile w.processEnv, [], none,
        [.loadConfig, .createApp, .connectDB], .crashed⟩ := by
  simp [startup, h]

theorem startup_bound (w : World)
    (h : w.connectDB (dotenvConfig w.dotenvFile w.processEnv) = true)
    (hp : w.portFree (PORT (dotenvConfig w.dotenvFile w.processEnv)) = true) :
    startup w =
      ⟨dotenvConfig w.dotenvFile w.processEnv, appStack,
        some (PORT (dotenvConfig w.dotenvFile w.processEnv)),
        fullRun (dotenvConfig w.dotenvFile w.processEnv), .serving⟩ := by
  simp [startup, h, hp, Server.listen, Server.add, appStack, fullRun]

theorem startup_bindFailed (w : World)
    (h : w.connectDB (dotenvConfig w.dotenvFile w.processEnv) = true)
    (hp : w.portFree (PORT (dotenvConfig w.dotenvFile w.processEnv)) = false) :
    startup w =
      ⟨dotenvConfig w.dotenvFile w.processEnv, appStack, none,
        fullRun (dotenvConfig w.dotenvFile w.processEnv), .idle⟩ := by
  simp [startup, h, hp, Server.listen, Server.add, appStack, fullRun]

/-- A bound listener means the whole script ran. -/
theorem started (w : World) (h : (startup w).bound ≠ none) :
    w.connectDB (dotenvConfig w.dotenvFile w.processEnv) = true ∧
    w.portFree (PORT (dotenvConfig w.dotenvFile w.processEnv)) = true := by
  cases hc : w.connectDB (dotenvConfig w.dotenvFile w.processEnv)
  · rw [startup_rejected w hc] at h
    exact absurd rfl h
  · cases hp : w.portFree (PORT (dotenvConfig w.dotenvFile w.processEnv))
    · rw [startup_bindFailed w hc hp] at h
      exact absurd rfl h
    · exact ⟨rfl, rfl⟩

theorem serve_started (w : World) (req : Request) (h : (startup w).bound ≠ none) :
    serve w (startup w) req = some (runStack w req appStack [] false) := by
  obtain ⟨hc, hp⟩ := started w h
  rw [startup_bound w hc hp]
  rfl

theorem started_stack (w : World) (h : (startup w).bound ≠ none) :
    (startup w).stack = appStack := by
  obtain ⟨hc, hp⟩ := started w h
  rw [startup_bound w hc hp]

theorem startup_env (w : World) :
    (startup w).env = dotenvConfig w.dotenvFile w.processEnv := by
  cases hc : w.connectDB (dotenvConfig w.dotenvFile w.processEnv)
  · rw [startup_rejected w hc]
  · cases hp : w.portFree (PORT (dotenvConfig w.dotenvFile w.processEnv))
    · rw [startup_bindFailed w hc hp]
    · rw [startup_bound w hc hp]

/-! ## The router loop on the app's stack -/

theorem use_matches (h : Handler) (req : Request) : (Layer.use h).matches req = true := rfl

theorem admin_matches (req : Request) :
    (Layer.mount "/api/admin" .adminRouter).matches req = mountMatches "/api/admin" req.path := by
  have : ("/api/admin" == "/") = false := by decide
  simp [Layer.matches, this]

theorem blog_matches (req : Request) :
    (Layer.mount "/api/blog" .blogRouter).matches req = mountMatches "/api/blog" req.path := by
  have : ("/api/blog" == "/") = false := by decide
  simp [Layer.matches, this]

theorem use_allows (h : Handler) (req : Request) : (Layer.use h).allows req = false := rfl

theorem mount_allows (p : String) (h : Handler) (req : Request) :
    (Layer.mount p h).allows req = false := rfl

theorem get_allows (p : String) (h : Handler) (req : Request) (hO : req.method ≠ .OPTIONS) :
    (Layer.get p h).allows req = false := by
  simp [Layer.allows, hO]

theorem get_matches_path {p : String} {h : Handler} {req : Request}
    (hm : (Layer.get p h).matches req = true) : routeMatches p req.path = true := by
  simp only [Layer.matches, Bool.and_eq_true] at hm
  exact hm.1

theorem home_matches_iff (req : Request) :
    (Layer.get "/" .home).matches req = true ↔
      (req.method = .GET ∨ req.method = .HEAD) ∧ (req.path = "/" ∨ req.path = "//") := by
  simp only [Layer.matches, Bool.and_eq_true, Bool.or_eq_true, beq_iff_eq, routeMatches_root]
  exact And.comm

theorem invoke_admin (w : World) (req : Request) :
    invoke w .adminRouter req = w.adminRouter req := rfl

theorem invoke_blog (w : World) (req : Request) :
    invoke w .blogRouter req = w.blogRouter req := rfl

theorem invoke_home (w : World) (req : Request) :
    invoke w .home req = .respond (send req "API is working") := rfl

theorem runStack_app (w : World) (req : Request) :
    runStack w req appStack [] false = answer w req := by
  unfold answer
  by_cases hO : req.method = .OPTIONS
  · simp [appStack, runStack, use_matches, Layer.handler, invoke, hO]
  have hC : invoke w .cors req = .next := by simp [invoke, hO]
  rw [if_neg hO]
  cases hF : req.body.failure with
  | some s =>
    have hJ : invoke w .json req = .error (some s) 200 := by simp [invoke, hF]
    simp [appStack, runStack, use_matches, Layer.handler, hC, hJ]
  | none =>
    have hJ : invoke w .json req = .next := by simp [invoke, hF]
    have hH2 := get_allows "/" .home req hO
    simp only [appStack, runStack, use_matches, admin_matches, blog_matches, use_allows,
      mount_allows, Layer.handler, hC, hJ, hH2, invoke_admin, invoke_blog, invoke_home, if_true,
      List.nil_append, List.cons_append, Bool.or_false, Bool.false_eq_true, if_false]
    cases hH : (Layer.get "/" .home).matches req
    · simp only [Bool.false_eq_true, if_false]
      cases hA : mountMatches "/api/admin" req.path
      · simp only [Bool.false_eq_true, if_false]
        cases hBl : mountMatches "/api/blog" req.path
        · simp
        · simp only [if_true]
          cases w.blogRouter req <;> rfl
      · have hBl := admin_not_blog hA
        simp only [if_true, hBl, Bool.false_eq_true, if_false]
        cases w.adminRouter req <;> rfl
    · simp

theorem split_at_listen {A B pre post : List Event} {P port : PortArg}
    (hA : ∀ e ∈ A, e.isListen = false) (hB : ∀ e ∈ B, e.isListen = false)
    (h : A ++ Event.listen P :: B = pre ++ Event.listen port :: post) :
    pre = A ∧ port = P ∧ post = B := by
  induction A generalizing pre with
  | nil =>
    cases pre with
    | nil =>
      simp only [List.nil_append, List.cons.injEq, Event.listen.injEq] at h
      exact ⟨rfl, h.1.symm, h.2.symm⟩
    | cons a pre =>
      simp only [List.nil_append, List.cons_append, List.cons.injEq] at h
      have hm : Event.listen port ∈ B := by rw [h.2]; simp
      have := hB _ hm
      simp [Event.isListen] at this
  | cons a A ih =>
    cases pre with
    | nil =>
      simp only [List.nil_append, List.cons_append, List.cons.injEq] at h
      have := hA a (List.mem_cons_self _ _)
      rw [h.1] at this
      simp [Event.isListen] at this
    | cons b pre =>
      simp only [List.cons_append, List.cons.injEq] at h
      obtain ⟨hab, h2⟩ := h
      obtain ⟨h3, h4, h5⟩ := ih (fun e he => hA e (List.mem_cons_of_mem _ he)) h2
      exact ⟨by rw [h3, hab], h4, h5⟩

theorem settle_ran (req : Request) (ran : List Handler) (o : Outcome) :
    (settle req ran o).ran = ran := by
  cases o <;> rfl

theorem answer_ran_sublist (w : World) (req : Request) :
    List.Sublist (answer w req).ran (appStack.map Layer.handler) := by
  unfold answer
  repeat' split
  all_goals first
    | (rw [settle_ran]; decide)
    | (dsimp only; decide)

theorem matched_app (req : Request) :
    matched appStack req =
      if (Layer.get "/" .home).matches req then [.home]
      else if mountMatches "/api/admin" req.path then [.adminRouter]
      else if mountMatches "/api/blog" req.path then [.blogRouter]
      else [] := by
  cases hH : (Layer.get "/" .home).matches req
  · cases hA : mountMatches "/api/admin" req.path
    · cases hB : mountMatches "/api/blog" req.path <;>
        simp [matched, routes, appStack, Layer.isTarget, List.filter, hH, admin_matches,
          blog_matches, hA, hB, Layer.handler]
    · have hB := admin_not_blog hA
      simp [matched, routes, appStack, Layer.isTarget, List.filter, hH, admin_matches,
        blog_matches, hA, hB, Layer.handler]
  · have hp := get_matches_path hH
    have hA := home_not_admin hp
    have hB := home_not_blog hp
    simp [matched, routes, appStack, Layer.isTarget, List.filter, hH, admin_matches,
      blog_matches, hA, hB, Layer.handler]

theorem dispatch_app (req : Request) :
    dispatch appStack req =
      if (Layer.get "/" .home).matches req then some .home
      else if mountMatches "/api/admin" req.path then some .adminRouter
      else if mountMatches "/api/blog" req.path then some .blogRouter
      else none := by
  cases hH : (Layer.get "/" .home).matches req
  · cases hA : mountMatches "/api/admin" req.path
    · cases hB : mountMatches "/api/blog" req.path <;>
        simp [dispatch, routes, appStack, Layer.isTarget, List.filter, List.find?, hH,
          admin_matches, blog_matches, hA, hB, Layer.handler]
    · simp [dispatch, routes, appStack, Layer.isTarget, List.filter, List.find?, hH,
        admin_matches, hA, Layer.handler]
  · simp [dispatch, routes, appStack, Layer.isTarget, List.filter, List.find?, hH,
      Layer.handler]

theorem matched_eq_dispatch (req : Request) :
    matched appStack req = (dispatch appStack req).toList := by
  rw [matched_app, dispatch_app]
  repeat' split
  all_goals rfl

theorem answer_ran (w : World) (req : Request) (hO : req.method ≠ .OPTIONS)
    (hB : req.body.failure = none) :
    (answer w req).ran = .cors :: .json :: matched appStack req := by
  rw [matched_app]
  unfold answer
  rw [if_neg hO]
  simp only [hB]
  repeat' split
  all_goals first
    | rfl
    | exact settle_ran _ _ _

theorem failure_range {b : JsonBody} {s : Nat} (h : b.failure = some s) :
    s = 400 ∨ s = 413 ∨ s = 415 := by
  unfold JsonBody.failure at h
  repeat' split at h
  all_goals simp at h
  all_goals omega

theorem failure_of_malformed {b : JsonBody} (h : b.wellFormed = false) :
    ∃ s, b.failure = some s ∧ (s = 400 ∨ s = 413 ∨ s = 415) ∧
      (b.charsetOk = true → b.encodingOk = true → b.withinLimit = true → s = 400) := by
  obtain ⟨c, e, l, i, wf, st⟩ := b
  simp only at h
  subst h
  cases c <;> cases e <;> cases l <;> cases i <;> simp [JsonBody.failure]

theorem errorStatus_json {s : Nat} (h : s = 400 ∨ s = 413 ∨ s = 415) :
    errorStatus (some s) 200 = s := by
  rcases h with rfl | rfl | rfl <;> rfl

/-! ## The specification's table -/

theorem spec_admin_not_blog {p : List Char} (h : "/api/admin".toList.isPrefixOf p = true) :
    "/api/blog".toList.isPrefixOf p = false := by
  by_contra hc
  have hb := Bool.eq_true_of_not_eq_false hc
  have h3 : "/api/blog".toList <+: "/api/admin".toList :=
    List.prefix_of_prefix_length_le (List.isPrefixOf_iff_prefix.mp hb)
      (List.isPrefixOf_iff_prefix.mp h) (by decide)
  revert h3
  decide

theorem spec_root_not_admin {p : List Char} (h : (p == "/".toList) = true) :
    "/api/admin".toList.isPrefixOf p = false := by
  rw [beq_iff_eq] at h
  subst h
  decide

theorem spec_root_not_blog {p : List Char} (h : (p == "/".toList) = true) :
    "/api/blog".toList.isPrefixOf p = false := by
  rw [beq_iff_eq] at h
  subst h
  decide

theorem spec_home_path {req : Request}
    (h : (req.method == Method.GET && req.path.toList == "/".toList) = true) :
    (req.path.toList == "/".toList) = true := by
  rw [Bool.and_eq_true] at h
  exact h.2

theorem longestPrefixMatch_table (req : Request) :
    longestPrefixMatch routerTable req =
      if "/api/admin".toList.isPrefixOf req.path.toList then some .adminRouter
      else if "/api/blog".toList.isPrefixOf req.path.toList then some .blogRouter
      else if (req.method == .GET && req.path.toList == "/".toList) then some .home
      else none := by
  have e1 : RouteEntry.matches ⟨"/api/admin", false, none, .adminRouter⟩ req =
      "/api/admin".toList.isPrefixOf req.path.toList := rfl
  have e2 : RouteEntry.matches ⟨"/api/blog", false, none, .blogRouter⟩ req =
      "/api/blog".toList.isPrefixOf req.path.toList := rfl
  have e3 : RouteEntry.matches ⟨"/", true, some .GET, .home⟩ req =
      (req.method == .GET && req.path.toList == "/".toList) := rfl
  unfold longestPrefixMatch routerTable
  simp only [List.filter, e1, e2, e3]
  cases hA : "/api/admin".toList.isPrefixOf req.path.toList
  · cases hB : "/api/blog".toList.isPrefixOf req.path.toList
    · cases hH : (req.method == Method.GET && req.path.toList == "/".toList) <;> rfl
    · cases hH : (req.method == Method.GET && req.path.toList == "/".toList)
      · rfl
      · rw [spec_root_not_blog (spec_home_path hH)] at hB
        exact absurd hB (by decide)
  · have hB := spec_admin_not_blog hA
    cases hH : (req.method == Method.GET && req.path.toList == "/".toList)
    · rw [hB]
      rfl
    · rw [spec_root_not_admin (spec_home_path hH)] at hA
      exact absurd hA (by decide)

theorem path_eq_root {p : String} : (p.toList == "/".toList) = true ↔ p = "/" := by
  rw [beq_iff_eq]
  constructor
  · intro h
    exact String.ext h
  · rintro rfl
    rfl

/-- On requests whose path has no upper-case letter, is not `//`, whose
method is not `HEAD`, and in which a registered prefix is always followed by
the end of the path or a `/`, Express's dispatch and the literal
longest-prefix match select the same target. -/
theorem dispatch_agrees (req : Request)
    (hcase : lower req.path = req.path.toList)
    (hhead : req.method ≠ .HEAD)
    (hdbl : req.path ≠ "//")
    (hA : ∀ rest, req.path.toList = "/api/admin".toList ++ rest →
      rest = [] ∨ ∃ t, rest = '/' :: t)
    (hB : ∀ rest, req.path.toList = "/api/blog".toList ++ rest →
      rest = [] ∨ ∃ t, rest = '/' :: t) :
    dispatch appStack req = longestPrefixMatch routerTable req := by
  have cA : mountMatches "/api/admin" req.path =
      "/api/admin".toList.isPrefixOf req.path.toList := by
    rw [Bool.eq_iff_iff, admin_iff, List.isPrefixOf_iff_prefix, hcase]
    constructor
    · rintro ⟨rest, h, _⟩
      exact ⟨rest, h.symm⟩
    · rintro ⟨rest, h⟩
      exact ⟨rest, h.symm, hA rest h.symm⟩
  have cB : mountMatches "/api/blog" req.path =
      "/api/blog".toList.isPrefixOf req.path.toList := by
    rw [Bool.eq_iff_iff, blog_iff, List.isPrefixOf_iff_prefix, hcase]
    constructor
    · rintro ⟨rest, h, _⟩
      exact ⟨rest, h.symm⟩
    · rintro ⟨rest, h⟩
      exact ⟨rest, h.symm, hB rest h.symm⟩
  have cH : (Layer.get "/" .home).matches req =
      (req.method == .GET && req.path.toList == "/".toList) := by
    rw [Bool.eq_iff_iff, home_matches_iff, Bool.and_eq_true, path_eq_root, beq_iff_eq]
    constructor
    · rintro ⟨hm | hm, hp | hp⟩
      · exact ⟨hm, hp⟩
      · exact absurd hp hdbl
      · exact absurd hm hhead
      · exact absurd hm hhead
    · rintro ⟨hm, hp⟩
      exact ⟨Or.inl hm, Or.inl hp⟩
  rw [dispatch_app, longestPrefixMatch_table, cA, cB, cH]
  cases hH : (req.method == Method.GET && req.path.toList == "/".toList)
  · rfl
  · rw [spec_root_not_admin (spec_home_path hH), spec_root_not_blog (spec_home_path hH)]
    rfl

theorem spec_admin_under {p : String}
    (h : p = "/api/admin" ∨ ∃ rest : String, p = "/api/admin/" ++ rest) :
    "/api/admin".toList.isPrefixOf p.toList = true := by
  rcases h with rfl | ⟨rest, rfl⟩
  · decide
  · rw [List.isPrefixOf_iff_prefix]
    exact ⟨'/' :: rest.toList, rfl⟩

theorem spec_blog_under {p : String}
    (h : p = "/api/blog" ∨ ∃ rest : String, p = "/api/blog/" ++ rest) :
    "/api/blog".toList.isPrefixOf p.toList = true := by
  rcases h with rfl | ⟨rest, rfl⟩
  · decide
  · rw [List.isPrefixOf_iff_prefix]
    exact ⟨'/' :: rest.toList, rfl⟩

theorem dispatch_home_iff (req : Request) :
    dispatch appStack req = some .home ↔
      (req.method = .GET ∨ req.method = .HEAD) ∧ (req.path = "/" ∨ req.path = "//") := by
  rw [dispatch_app, ← home_matches_iff]
  repeat' split
  all_goals simp_all

theorem dispatch_admin_iff (req : Request) :
    dispatch appStack req = some .adminRouter ↔
      ∃ rest, lower req.path = "/api/admin".toList ++ rest ∧ (rest = [] ∨ ∃ t, rest = '/' :: t) := by
  rw [dispatch_app, ← admin_iff]
  cases hH : (Layer.get "/" .home).matches req
  · cases hA : mountMatches "/api/admin" req.path
    · cases hB : mountMatches "/api/blog" req.path <;> simp
    · simp
  · have := home_not_admin (get_matches_path hH)
    simp [this]

theorem dispatch_blog_iff (req : Request) :
    dispatch appStack req = some .blogRouter ↔
      ∃ rest, lower req.path = "/api/blog".toList ++ rest ∧ (rest = [] ∨ ∃ t, rest = '/' :: t) := by
  rw [dispatch_app, ← blog_iff]
  cases hH : (Layer.get "/" .home).matches req
  · cases hA : mountMatches "/api/admin" req.path
    · cases hB : mountMatches "/api/blog" req.path <;> simp
    · have := admin_not_blog hA
      simp [this]
  · have := home_not_blog (get_matches_path hH)
    simp [this]

theorem dispatch_not_middleware (req : Request) :
    dispatch appStack req ≠ some .cors ∧ dispatch appStack req ≠ some .json := by
  rw [dispatch_app]
  repeat' split
  all_goals simp

/-! ## Claims -/

/-- C1: when the promise of `connectDB()` rejects, startup fails before the
listener is bound: the run ends crashed, `app.listen` is never called, no
middleware or route is registered (no registration step, empty stack), nothing
is bound, and no request is served. -/
theorem C1_connect_failure_never_listens (w : World)
    (h : w.connectDB (dotenvConfig w.dotenvFile w.processEnv) = false) :
    (startup w).phase = .crashed ∧
    (∀ p, Event.listen p ∉ (startup w).events) ∧
    (∀ l, Event.register l ∉ (startup w).events) ∧
    (startup w).stack = [] ∧
    (startup w).bound = none ∧
    ∀ req, serve w (startup w) req = none := by
  rw [startup_rejected w h]
  refine ⟨rfl, ?_, ?_, rfl, rfl, fun _ => rfl⟩
  · intro p; simp
  · intro l; simp

theorem C1_witness :
    (startup dbDownWorld).phase = .crashed ∧
    Event.listen (.num 3000) ∉ (startup dbDownWorld).events ∧
    (startup dbDownWorld).stack = [] ∧
    serve dbDownWorld (startup dbDownWorld) (plain .GET "/") = none :=
  have h := C1_connect_failure_never_listens dbDownWorld (by decide)
  ⟨h.1, h.2.1 _, h.2.2.2.1, h.2.2.2.2.2 _⟩

/-- C2 (amended): on the started server, Express's registration-order dispatch
over the routes `GET /`, `/api/admin`, `/api/blog` selects at most one target,
and exactly this one: the home route for `GET` or `HEAD` on `/` or `//`; the
administrative sub-router for a path that, compared without regard to case, is
`/api/admin` or continues it with `/`; the content sub-router likewise for
`/api/blog`; never a middleware.  Every request whose path is `/api/admin` or
lies under `/api/admin/` goes to the administrative sub-router and to no
other, every request whose path is `/api/blog` or lies under `/api/blog/` goes
to the content sub-router and to no other, `GET /` goes to the home route, and
on these the literal longest-prefix match over the specification's Router
Table selects the same target.  The two selections also agree on every request
whose path has no upper-case letter and is not `//`, whose method is not
`HEAD`, and in which a registered prefix is followed by the end of the path or
a `/`.  For a request that the two middleware stages pass on, the functions
the router loop runs after them are exactly the selected target.  (Last
conjunct: on a table that also lists `/api`, the longest-prefix policy prefers
`/api/admin` for `/api/admin/x`, wherever the shorter row stands.) -/
theorem C2_dispatch_targets (w : World) (req : Request)
    (hs : (startup w).bound ≠ none) :
    (dispatch (startup w).stack req = some .home ↔
      (req.method = .GET ∨ req.method = .HEAD) ∧ (req.path = "/" ∨ req.path = "//")) ∧
    (dispatch (startup w).stack req = some .adminRouter ↔
      ∃ rest, lower req.path = "/api/admin".toList ++ rest ∧
        (rest = [] ∨ ∃ t, rest = '/' :: t)) ∧
    (dispatch (startup w).stack req = some .blogRouter ↔
      ∃ rest, lower req.path = "/api/blog".toList ++ rest ∧
        (rest = [] ∨ ∃ t, rest = '/' :: t)) ∧
    dispatch (startup w).stack req ≠ some .cors ∧
    dispatch (startup w).stack req ≠ some .json ∧
    matched (startup w).stack req = (dispatch (startup w).stack req).toList ∧
    ((req.path = "/api/admin" ∨ ∃ rest : String, req.path = "/api/admin/" ++ rest) →
      dispatch (startup w).stack req = some .adminRouter ∧
      longestPrefixMatch routerTable req = some .adminRouter) ∧
    ((req.path = "/api/blog" ∨ ∃ rest : String, req.path = "/api/blog/" ++ rest) →
      dispatch (startup w).stack req = some .blogRouter ∧
      longestPrefixMatch routerTable req = some .blogRouter) ∧
    (req.method = .GET → req.path = "/" →
      dispatch (startup w).stack req = some .home ∧
      longestPrefixMatch routerTable req = some .home) ∧
    (lower req.path = req.path.toList → req.method ≠ .HEAD → req.path ≠ "//" →
      (∀ rest, req.path.toList = "/api/admin".toList ++ rest →
        rest = [] ∨ ∃ t, rest = '/' :: t) →
      (∀ rest, req.path.toList = "/api/blog".toList ++ rest →
        rest = [] ∨ ∃ t, rest = '/' :: t) →
      dispatch (startup w).stack req = longestPrefixMatch routerTable req) ∧
    (req.method ≠ .OPTIONS → req.body.failure = none →
      ∃ x, serve w (startup w) req = some x ∧
        x.ran = .cors :: .json :: (dispatch (startup w).stack req).toList) ∧
    (longestPrefixMatch (⟨"/api", false, none, .home⟩ :: routerTable)
        (plain .GET "/api/admin/x") = some .adminRouter ∧
      longestPrefixMatch (routerTable ++ [⟨"/api", false, none, .home⟩])
        (plain .GET "/api/admin/x") = some .adminRouter) := by
  rw [serve_started w req hs, started_stack w hs, runStack_app]
  refine ⟨dispatch_home_iff req, dispatch_admin_iff req, dispatch_blog_iff req,
    (dispatch_not_middleware req).1, (dispatch_not_middleware req).2,
    matched_eq_dispatch req, ?_, ?_, ?_, dispatch_agrees req, ?_, by decide⟩
  · intro h
    refine ⟨(dispatch_admin_iff req).mpr (admin_iff.mp (admin_under h)), ?_⟩
    rw [longestPrefixMatch_table, spec_admin_under h]
    rfl
  · intro h
    refine ⟨(dispatch_blog_iff req).mpr (blog_iff.mp (blog_under h)), ?_⟩
    have hb := spec_blog_under h
    have ha : "/api/admin".toList.isPrefixOf req.path.toList = false := by
      cases ha : "/api/admin".toList.isPrefixOf req.path.toList
      · rfl
      · rw [spec_admin_not_blog ha] at hb
        exact absurd hb (by decide)
    rw [longestPrefixMatch_table, ha, hb]
    rfl
  · intro hm hp
    refine ⟨(dispatch_home_iff req).mpr ⟨Or.inl hm, Or.inl hp⟩, ?_⟩
    rw [longestPrefixMatch_table, hm, hp]
    rfl
  · intro hO hB
    refine ⟨_, rfl, ?_⟩
    rw [answer_ran w req hO hB, matched_eq_dispatch]

theorem C2_witness :
    dispatch (startup happyWorld).stack ⟨.POST, "/api/admin/login", none, false, wellFormedJson⟩
      = some .adminRouter ∧
    longestPrefixMatch routerTable ⟨.POST, "/api/admin/login", none, false, wellFormedJson⟩
      = some .adminRouter :=
  (C2_dispatch_targets happyWorld ⟨.POST, "/api/admin/login", none, false, wellFormedJson⟩
    (by decide)).2.2.2.2.2.2.1 (Or.inr ⟨"login", by decide⟩)

/-- C2 as stated fails: Express's dispatch and the literal longest-prefix
match differ on `/api/adminx` (a prefix that does not end a path segment), on
`/API/Admin/x` (case), on `HEAD /` (served by the `GET` route) and on `GET //`
(one trailing slash is tolerated). -/
theorem C2_counterexample :
    (startup happyWorld).bound = some (.num 3000) ∧
    (dispatch (startup happyWorld).stack (plain .GET "/api/adminx") = none ∧
      longestPrefixMatch routerTable (plain .GET "/api/adminx") = some .adminRouter) ∧
    (dispatch (startup happyWorld).stack (plain .GET "/API/Admin/x") = some .adminRouter ∧
      longestPrefixMatch routerTable (plain .GET "/API/Admin/x") = none) ∧
    (dispatch (startup happyWorld).stack (plain .HEAD "/") = some .home ∧
      longestPrefixMatch routerTable (plain .HEAD "/") = none) ∧
    (dispatch (startup happyWorld).stack (plain .GET "//") = some .home ∧
      longestPrefixMatch routerTable (plain .GET "//") = none) := by
  decide

/-- C3 (amended): once the server has started, every `GET` request for the
path `/` that carries no JSON-typed body rejected by the body parser, and whose
conditional headers do not validate the reply, is answered with status 200 and
the body "API is working", which `res.send` labels `text/html; charset=utf-8`;
the reply is produced by the home route, after the two middleware stages, and
by neither sub-router. -/
theorem C3_home_route (w : World) (req : Request)
    (hs : (startup w).bound ≠ none) (hm : req.method = .GET) (hp : req.path = "/")
    (hb : req.body.failure = none) (hf : req.fresh = false) :
    serve w (startup w) req =
      some ⟨[.cors, .json, .home],
        some ⟨200, .sent "text/html; charset=utf-8" "API is working"⟩⟩ := by
  rw [serve_started w req hs, runStack_app]
  unfold answer
  have hO : req.method ≠ .OPTIONS := by rw [hm]; decide
  have hH : (Layer.get "/" .home).matches req = true :=
    (home_matches_iff req).mpr ⟨Or.inl hm, Or.inl hp⟩
  rw [if_neg hO]
  simp only [hb, hH, if_true]
  simp [send, hf, hm]

theorem C3_witness :
    serve happyWorld (startup happyWorld) (plain .GET "/") =
      some ⟨[.cors, .json, .home],
        some ⟨200, .sent "text/html; charset=utf-8" "API is working"⟩⟩ :=
  C3_home_route happyWorld (plain .GET "/") (by decide) rfl rfl rfl rfl

/-- C3 as stated fails on three counts: the body of the reply to a plain
`GET /` is labelled `text/html`, not plain text; a `GET /` whose JSON-typed
body does not parse is answered 400 by the body-parsing stage and never
reaches the home route; and a conditional `GET /` whose headers validate the
reply is answered 304 without body. -/
theorem C3_counterexample :
    (startup happyWorld).bound = some (.num 3000) ∧
    serve happyWorld (startup happyWorld) (plain .GET "/") =
      some ⟨[.cors, .json, .home],
        some ⟨200, .sent "text/html; charset=utf-8" "API is working"⟩⟩ ∧
    serve happyWorld (startup happyWorld) ⟨.GET, "/", none, false, malformed⟩ =
      some ⟨[.cors, .json], some ⟨400, .errorPage⟩⟩ ∧
    serve happyWorld (startup happyWorld) ⟨.GET, "/", none, true, .absent⟩ =
      some ⟨[.cors, .json, .home], some ⟨304, .empty⟩⟩ := by
  decide

/-- C4 (amended): once the server has started, take a request that is not a
`GET` or `HEAD` on `/` or `//` and whose path, compared without regard to
case, is neither `/api/admin` or `/api/blog` nor a continuation of one of them
with `/` (e.g. `GET /api/unknown`).  Neither the home route nor a sub-router
is invoked for it; and when it is not an `OPTIONS` request and carries no
JSON-typed body rejected by the body parser, the final handler answers it with
status 404 after the two middleware stages. -/
theorem C4_unmatched_not_found (w : World) (req : Request)
    (hs : (startup w).bound ≠ none)
    (hHome : ¬ ((req.method = .GET ∨ req.method = .HEAD) ∧
      (req.path = "/" ∨ req.path = "//")))
    (hAdmin : ¬ ∃ rest, lower req.path = "/api/admin".toList ++ rest ∧
      (rest = [] ∨ ∃ t, rest = '/' :: t))
    (hBlog : ¬ ∃ rest, lower req.path = "/api/blog".toList ++ rest ∧
      (rest = [] ∨ ∃ t, rest = '/' :: t)) :
    (∃ x, serve w (startup w) req = some x ∧
      .home ∉ x.ran ∧ .adminRouter ∉ x.ran ∧ .blogRouter ∉ x.ran) ∧
    (req.method ≠ .OPTIONS → req.body.failure = none →
      serve w (startup w) req =
        some ⟨[.cors, .json],
          some ⟨404, if req.method = .HEAD then .empty else .errorPage⟩⟩) := by
  have hH : (Layer.get "/" .home).matches req = false := by
    cases h : (Layer.get "/" .home).matches req
    · rfl
    · exact absurd ((home_matches_iff req).mp h) hHome
  have hA : mountMatches "/api/admin" req.path = false := by
    cases h : mountMatches "/api/admin" req.path
    · rfl
    · exact absurd (admin_iff.mp h) hAdmin
  have hB : mountMatches "/api/blog" req.path = false := by
    cases h : mountMatches "/api/blog" req.path
    · rfl
    · exact absurd (blog_iff.mp h) hBlog
  rw [serve_started w req hs, runStack_app]
  unfold answer
  simp only [hH, hA, hB, Bool.false_eq_true, if_false]
  refine ⟨⟨_, rfl, ?_⟩, ?_⟩
  · split
    · simp
    · split <;> simp
  · intro hO hb
    rw [if_neg hO]
    simp only [hb]
    rfl

theorem C4_witness :
    serve happyWorld (startup happyWorld) (plain .GET "/api/unknown") =
      some ⟨[.cors, .json], some ⟨404, .errorPage⟩⟩ :=
  (C4_unmatched_not_found happyWorld (plain .GET "/api/unknown") (by decide) (by decide)
    (fun h => absurd (admin_iff.mpr h) (by decide))
    (fun h => absurd (blog_iff.mpr h) (by decide))).2 (by decide) rfl

/-- C4 as stated fails on several counts.  `POST /api/unknown` with a
JSON-typed body that does not parse is answered 400, and `OPTIONS
/api/unknown` is answered 204, not 404.  `HEAD /` and `GET //` are not `GET`
on exactly `/`, and `/API/Admin` is not literally equal to or under
`/api/admin`, yet each of them is handed to a registered handler. -/
theorem C4_counterexample :
    (startup happyWorld).bound = some (.num 3000) ∧
    serve happyWorld (startup happyWorld) ⟨.POST, "/api/unknown", none, false, malformed⟩ =
      some ⟨[.cors, .json], some ⟨400, .errorPage⟩⟩ ∧
    serve happyWorld (startup happyWorld) (plain .OPTIONS "/api/unknown") =
      some ⟨[.cors], some ⟨204, .empty⟩⟩ ∧
    serve happyWorld (startup happyWorld) (plain .HEAD "/") =
      some ⟨[.cors, .json, .home], some ⟨200, .empty⟩⟩ ∧
    serve happyWorld (startup happyWorld) (plain .GET "//") =
      some ⟨[.cors, .json, .home],
        some ⟨200, .sent "text/html; charset=utf-8" "API is working"⟩⟩ ∧
    serve happyWorld (startup happyWorld) (plain .GET "/API/Admin") =
      some ⟨[.cors, .json, .adminRouter],
        some ⟨200, .sent "application/json; charset=utf-8" "admin"⟩⟩ := by
  decide

/-- C5: once the server has started, whenever a request reaches a sub-router,
the functions that ran are exactly `cors()`, then `express.json()`, then that
sub-router; and for every request whatsoever the functions that ran form a
subsequence of the registration order `cors`, `json`, home route,
`adminRouter`, `blogRouter`. -/
theorem C5_stage_order (w : World) (req : Request) (x : Exchange) (h : Handler)
    (hs : (startup w).bound ≠ none) (hx : serve w (startup w) req = some x)
    (hh : h = .adminRouter ∨ h = .blogRouter) (hr : h ∈ x.ran) :
    x.ran = [.cors, .json, h] ∧
    List.Sublist x.ran (appStack.map Layer.handler) ∧
    (startup w).stack.map Layer.handler = [.cors, .json, .home, .adminRouter, .blogRouter] := by
  rw [serve_started w req hs, runStack_app] at hx
  have hx2 : x = answer w req := (Option.some.inj hx).symm
  subst hx2
  refine ⟨?_, answer_ran_sublist w req, by rw [started_stack w hs]; rfl⟩
  revert hr
  unfold answer
  repeat' split
  all_goals (try rw [settle_ran])
  all_goals rcases hh with rfl | rfl <;> simp

theorem C5_witness :
    serve happyWorld (startup happyWorld) (plain .GET "/api/blog/all") =
      some ⟨[.cors, .json, .blogRouter],
        some ⟨200, .sent "application/json; charset=utf-8" "blog"⟩⟩ ∧
    (⟨[.cors, .json, .blogRouter],
      some ⟨200, .sent "application/json; charset=utf-8" "blog"⟩⟩ : Exchange).ran
      = [.cors, .json, .blogRouter] :=
  ⟨by decide,
   (C5_stage_order happyWorld (plain .GET "/api/blog/all")
    ⟨[.cors, .json, .blogRouter], some ⟨200, .sent "application/json; charset=utf-8" "blog"⟩⟩
    .blogRouter (by decide) (by decide) (Or.inr rfl) (by decide)).1⟩

/-- C6 (amended): once the server has started, a request carrying a JSON-typed
body that is not well-formed JSON never reaches the home route or a
sub-router; and when its method is not `OPTIONS`, the body-parsing stage ends
the chain after `cors()` and the response has a 4xx status: 400, or 415 / 413
when the body's charset, encoding or size is refused before it is parsed. -/
theorem C6_malformed_body (w : World) (req : Request) (b : JsonBody)
    (hs : (startup w).bound ≠ none) (hb : req.body = .json b)
    (hw : b.wellFormed = false) :
    (∃ x, serve w (startup w) req = some x ∧
      .home ∉ x.ran ∧ .adminRouter ∉ x.ran ∧ .blogRouter ∉ x.ran) ∧
    (req.method ≠ .OPTIONS →
      ∃ r, serve w (startup w) req = some ⟨[.cors, .json], some r⟩ ∧
        r.isClientError = true ∧
        (r.status = 400 ∨ r.status = 413 ∨ r.status = 415) ∧
        (b.charsetOk = true → b.encodingOk = true → b.withinLimit = true →
          r.status = 400)) := by
  obtain ⟨s, hsf, hrange, h400⟩ := failure_of_malformed hw
  have hF : req.body.failure = some s := by rw [hb]; exact hsf
  rw [serve_started w req hs, runStack_app]
  unfold answer
  simp only [hF, errorStatus_json hrange]
  refine ⟨⟨_, rfl, ?_⟩, ?_⟩
  · split <;> simp
  · intro hO
    rw [if_neg hO]
    refine ⟨_, rfl, ?_, hrange, h400⟩
    rcases hrange with rfl | rfl | rfl <;> rfl

theorem C6_witness :
    ∃ r, serve happyWorld (startup happyWorld)
        ⟨.POST, "/api/blog/add", none, false, malformed⟩ = some ⟨[.cors, .json], some r⟩ ∧
      r.isClientError = true :=
  have h := (C6_malformed_body happyWorld ⟨.POST, "/api/blog/add", none, false, malformed⟩
    ⟨true, true, true, true, false, false⟩ (by decide) rfl rfl).2 (by decide)
  h.elim fun r hr => ⟨r, hr.1, hr.2.1⟩

/-- C6 as stated fails: an `OPTIONS` request with a JSON-typed body that does
not parse is answered 204 by the cross-origin stage; the body-parsing stage
never runs and the status is not of the 4xx class. -/
theorem C6_counterexample :
    (startup happyWorld).bound = some (.num 3000) ∧
    serve happyWorld (startup happyWorld)
        ⟨.OPTIONS, "/api/admin/login", some "https://blog.example", false, malformed⟩ =
      some ⟨[.cors], some ⟨204, .empty⟩⟩ ∧
    (⟨204, .empty⟩ : Response).isClientError = false := by
  decide

/-- C10 (the code at the failing input): an `OPTIONS` request sent to the
started server is ended by `cors()` itself with status 204; `express.json()`
does not run, no route handler or sub-router runs, and the response is not an
error response, whereas the same request sent with `GET` is passed on by
`cors()` and reaches the content sub-router. -/
theorem C10_options_ended_by_cors :
    (startup happyWorld).bound = some (.num 3000) ∧
    serve happyWorld (startup happyWorld)
        ⟨.OPTIONS, "/api/blog/all", some "https://blog.example", false, .absent⟩ =
      some ⟨[.cors], some ⟨204, .empty⟩⟩ ∧
    (⟨204, .empty⟩ : Response).isClientError = false ∧
    serve happyWorld (startup happyWorld)
        ⟨.GET, "/api/blog/all", some "https://blog.example", false, .absent⟩ =
      some ⟨[.cors, .json, .blogRouter],
        some ⟨200, .sent "application/json; charset=utf-8" "blog"⟩⟩ := by
  decide

/-- Every request whose method is not `OPTIONS` is passed on by `cors()` to
`express.json()`, and ends in a route handler or in an error response of the
final handler with a 4xx status. -/
theorem other_methods_pass_cors (w : World) (req : Request) (x : Exchange)
    (hs : (startup w).bound ≠ none) (hx : serve w (startup w) req = some x)
    (hO : req.method ≠ .OPTIONS) :
    .json ∈ x.ran ∧
    (.home ∈ x.ran ∨ .adminRouter ∈ x.ran ∨ .blogRouter ∈ x.ran ∨
      ∃ r, x.response = some r ∧ r.isClientError = true) := by
  rw [serve_started w req hs, runStack_app] at hx
  have hx2 : x = answer w req := (Option.some.inj hx).symm
  subst hx2
  unfold answer
  rw [if_neg hO]
  cases hF : req.body.failure with
  | some s =>
    have hr : s = 400 ∨ s = 413 ∨ s = 415 := by
      cases hb : req.body with
      | json b =>
        rw [hb] at hF
        exact failure_range hF
      | absent => rw [hb] at hF; simp [Body.failure] at hF
      | other => rw [hb] at hF; simp [Body.failure] at hF
    simp only [errorStatus_json hr]
    refine ⟨by simp, Or.inr (Or.inr (Or.inr ⟨_, rfl, ?_⟩))⟩
    rcases hr with rfl | rfl | rfl <;> rfl
  | none =>
    simp only
    repeat' split
    all_goals (try rw [settle_ran])
    all_goals simp [finalHandler, Response.isClientError]

/-! ### Startup -/

theorem listen_mem (w : World)
    (hc : w.connectDB (dotenvConfig w.dotenvFile w.processEnv) = true) :
    Event.listen (PORT (startup w).env) ∈ (startup w).events := by
  rw [startup_env]
  cases hp : w.portFree (PORT (dotenvConfig w.dotenvFile w.processEnv))
  · rw [startup_bindFailed w hc hp]
    simp [fullRun]
  · rw [startup_bound w hc hp]
    simp [fullRun]

theorem listen_arg (w : World) (p : PortArg) (h : Event.listen p ∈ (startup w).events) :
    p = PORT (startup w).env := by
  rw [startup_env]
  cases hc : w.connectDB (dotenvConfig w.dotenvFile w.processEnv)
  · rw [startup_rejected w hc] at h
    simp at h
  · cases hp : w.portFree (PORT (dotenvConfig w.dotenvFile w.processEnv))
    · rw [startup_bindFailed w hc hp] at h
      simpa [fullRun] using h
    · rw [startup_bound w hc hp] at h
      simpa [fullRun] using h

theorem bound_arg (w : World) (p : PortArg) (h : (startup w).bound = some p) :
    p = PORT (startup w).env := by
  have hs : (startup w).bound ≠ none := by rw [h]; simp
  obtain ⟨hc, hp⟩ := started w hs
  rw [startup_bound w hc hp] at h ⊢
  exact (Option.some.inj h).symm

/-- C7 (amended): in every run in which `connectDB()` resolves, `app.listen`
is called with `PORT`, and that is the only port the listener is ever asked to
bind or bound to; `PORT` is the string value of the `PORT` environment
variable when the variable is set to a non-empty string, and the number 3000
when the variable is not set or is set to the empty string. -/
theorem C7_port_selection (w : World)
    (hc : w.connectDB (dotenvConfig w.dotenvFile w.processEnv) = true) :
    Event.listen (PORT (startup w).env) ∈ (startup w).events ∧
    (∀ p, Event.listen p ∈ (startup w).events → p = PORT (startup w).env) ∧
    (∀ p, (startup w).bound = some p → p = PORT (startup w).env) ∧
    (w.portFree (PORT (startup w).env) = true →
      (startup w).bound = some (PORT (startup w).env)) ∧
    (∀ s, (startup w).env.lookup "PORT" = some s → s ≠ "" →
      PORT (startup w).env = .str s) ∧
    ((startup w).env.lookup "PORT" = some "" → PORT (startup w).env = .num 3000) ∧
    ((startup w).env.lookup "PORT" = none → PORT (startup w).env = .num 3000) := by
  refine ⟨listen_mem w hc, listen_arg w, bound_arg w, ?_, ?_, ?_, ?_⟩
  · intro hp
    rw [startup_env] at hp ⊢
    rw [startup_bound w hc hp]
  · intro s hs hne
    simp [PORT, hs, hne]
  · intro hs
    simp [PORT, hs]
  · intro hs
    simp [PORT, hs]

theorem C7_witness :
    (startup port8080World).bound = some (.str "8080") ∧
    PORT (startup port8080World).env = .str "8080" :=
  have h := C7_port_selection port8080World (by decide)
  ⟨(h.2.2.2.1 (by decide)).trans (congrArg some (h.2.2.2.2.1 "8080" (by decide) (by decide))),
   h.2.2.2.2.1 "8080" (by decide) (by decide)⟩

/-- C7 as stated fails: with `PORT` set to the empty string the listener is
bound to 3000, not to the value of `PORT`. -/
theorem C7_counterexample :
    (startup emptyPortWorld).env.lookup "PORT" = some "" ∧
    (startup emptyPortWorld).bound = some (.num 3000) ∧
    (startup emptyPortWorld).bound ≠ some (.str "") := by
  decide

/-- C8 (amended): no environment makes the configuration-loading step fail.
In every run (whatever is missing from the environment and whatever `PORT` is
set to) the first three steps are `dotenv.config()`, `express()` and the call
of `connectDB()`; whenever `connectDB()` resolves, `app.listen` is called with
`PORT`; whenever in addition the bind succeeds, the process serves; and a run
crashes only when `connectDB()` rejects or the bind fails. -/
theorem C8_no_config_validation (w : World) :
    [Event.loadConfig, Event.createApp, Event.connectDB] <+: (startup w).events ∧
    (w.connectDB (startup w).env = true →
      Event.listen (PORT (startup w).env) ∈ (startup w).events) ∧
    (w.connectDB (startup w).env = true → w.portFree (PORT (startup w).env) = true →
      (startup w).phase = .serving ∧ (startup w).bound = some (PORT (startup w).env)) ∧
    ((startup w).phase = .crashed →
      w.connectDB (startup w).env = false ∨ w.portFree (PORT (startup w).env) = false) := by
  rw [startup_env]
  cases hc : w.connectDB (dotenvConfig w.dotenvFile w.processEnv)
  · rw [startup_rejected w hc]
    simp
  · cases hp : w.portFree (PORT (dotenvConfig w.dotenvFile w.processEnv))
    · rw [startup_bindFailed w hc hp]
      refine ⟨⟨_, rfl⟩, ?_, ?_, ?_⟩ <;> simp [fullRun]
    · rw [startup_bound w hc hp]
      refine ⟨⟨_, rfl⟩, ?_, ?_, ?_⟩ <;> simp [fullRun]

/-- C8 as stated fails: started with `PORT=abc` and no database setting at
all, the run loads its configuration without error, calls `connectDB()`, and
(the connector resolving) binds the listener with the string `abc`. -/
theorem C8_counterexample :
    (startup badPortWorld).env = [("PORT", "abc")] ∧
    Event.connectDB ∈ (startup badPortWorld).events ∧
    Event.listen (.str "abc") ∈ (startup badPortWorld).events ∧
    (startup badPortWorld).bound = some (.str "abc") ∧
    (startup badPortWorld).phase = .serving := by
  decide

theorem fullRun_split (env : Env) :
    fullRun env =
      [.loadConfig, .createApp, .connectDB,
       .register (.use .cors), .register (.use .json), .register (.get "/" .home),
       .register (.mount "/api/admin" .adminRouter),
       .register (.mount "/api/blog" .blogRouter)] ++
      Event.listen (PORT env) :: [.log ("Server is running on port " ++ (PORT env).render)] :=
  rfl

/-- C9: in every run the steps taken are an initial segment of the sequence
load configuration, create the app, connect to the database, install `cors()`,
install `express.json()`, register `GET /`, mount `/api/admin`, mount
`/api/blog`, call `app.listen(PORT)`, log; wherever the call of `app.listen`
occurs, the steps before it are exactly the configuration load, app creation,
database connection and the five registrations, in that order, and no
registration follows it; and once the listener is bound, every request is run
against the same fixed five-layer stack. -/
theorem C9_startup_order (w : World) :
    (startup w).events <+: fullRun (startup w).env ∧
    (∀ pre post port, (startup w).events = pre ++ Event.listen port :: post →
      pre = [.loadConfig, .createApp, .connectDB,
             .register (.use .cors), .register (.use .json), .register (.get "/" .home),
             .register (.mount "/api/admin" .adminRouter),
             .register (.mount "/api/blog" .blogRouter)] ∧
      (∀ e ∈ post, e.isRegistration = false) ∧
      (startup w).stack = appStack) ∧
    ((startup w).bound ≠ none →
      (startup w).events = fullRun (startup w).env ∧
      ∀ req, serve w (startup w) req = some (runStack w req appStack [] false)) := by
  refine ⟨?_, ?_, ?_⟩
  · rw [startup_env]
    cases hc : w.connectDB (dotenvConfig w.dotenvFile w.processEnv)
    · rw [startup_rejected w hc]
      exact List.take_prefix 3 (fullRun (dotenvConfig w.dotenvFile w.processEnv))
    · cases hp : w.portFree (PORT (dotenvConfig w.dotenvFile w.processEnv))
      · rw [startup_bindFailed w hc hp]
      · rw [startup_bound w hc hp]
  · intro pre post port h
    cases hc : w.connectDB (dotenvConfig w.dotenvFile w.processEnv)
    · rw [startup_rejected w hc] at h
      have hm : Event.listen port ∈ pre ++ Event.listen port :: post := by simp
      rw [← h] at hm
      simp at hm
    · cases hp : w.portFree (PORT (dotenvConfig w.dotenvFile w.processEnv))
      · rw [startup_bindFailed w hc hp] at h ⊢
        rw [fullRun_split] at h
        obtain ⟨h1, _, h3⟩ := split_at_listen (by decide) (by simp [Event.isListen]) h
        subst h1 h3
        exact ⟨rfl, by simp [Event.isRegistration], rfl⟩
      · rw [startup_bound w hc hp] at h ⊢
        rw [fullRun_split] at h
        obtain ⟨h1, _, h3⟩ := split_at_listen (by decide) (by simp [Event.isListen]) h
        subst h1 h3
        exact ⟨rfl, by simp [Event.isRegistration], rfl⟩
  · intro hs
    obtain ⟨hc, hp⟩ := started w hs
    refine ⟨?_, fun req => serve_started w req hs⟩
    rw [startup_env, startup_bound w hc hp]

end BlogAI
